import Mathlib

/-!
Verification of the `transformer-based-rl` repository against its
natural-language specification.

Shallow embedding of:

* `src/decision_transformer/dt_evaluation.py` — `get_returns` and the
  trajectory bookkeeping performed by `make_action`;
* `src/data/download_dataset.py` — the per-episode construction loop
  (next-observation fallback, mixed-games reward normalization);
* `src/decision_transformer/dt_model_pretrained.py` —
  `MaskedCausalAttention`, `Block` and `DecisionTransformer`
  (construction-time assertion, the shape behaviour of `forward`, and a
  rational-valued semantics of `forward` for batch size 1).

Real numbers of the Python code are modelled by `ℚ`.  The transcendental
primitives that the code uses (`torch.tanh`, GELU, the `exp` inside
`softmax`, the square roots inside `math.sqrt` and `LayerNorm`) are passed
as function parameters `th g ex sq : ℚ → ℚ`; theorems about concrete runs
constrain them only by hypotheses that are true of the real functions
(strict monotonicity of tanh, `tanh 0 = 0`, positivity of `exp`, and
`sqrt` mapping positives to positives).  Dropout layers are modelled as the
identity: all claims about `forward` concern inference with dropout
disabled (`model.eval()` / `drop_p = 0`).
-/

namespace TransformerRL

/-! ## Rational tensor primitives shared by the value-level model -/

/-- Dot product of two rational vectors (`torch` inner product). -/
def dot (xs ys : List ℚ) : ℚ := (List.zipWith (· * ·) xs ys).sum

/-- Elementwise addition of two vectors. -/
def vecAdd (xs ys : List ℚ) : List ℚ := List.zipWith (· + ·) xs ys

/-- `torch.nn.Linear` with weight rows `w` (shape `out × in`) and bias `b`:
`y = W x + b`. -/
def linear (w : List (List ℚ)) (b : List ℚ) (x : List ℚ) : List ℚ :=
  List.zipWith (fun row bi => dot row x + bi) w b

/-- Split a flat vector into `n` consecutive chunks of length `k`
(row-major `view`/`reshape`). -/
def chunksOf (k n : ℕ) (l : List ℚ) : List (List ℚ) :=
  (List.range n).map (fun i => (l.drop (i * k)).take k)

/-- Sum of a list of `d`-dimensional vectors. -/
def vsum (d : ℕ) (l : List (List ℚ)) : List ℚ := l.foldl vecAdd (List.replicate d 0)

/-- The `eps` constant of `torch.nn.LayerNorm` (default `1e-5`). -/
def lnEps : ℚ := 1 / 100000

/-- `torch.nn.LayerNorm` over the last dimension with elementwise affine
weight `w` and bias `b`: `(x - mean) / sqrt(var + eps) * w + b`, with the
biased variance.  `sq` stands for the real square root. -/
def layerNorm (sq : ℚ → ℚ) (w b x : List ℚ) : List ℚ :=
  let n : ℚ := x.length
  let mu := x.sum / n
  let cent := x.map (fun v => v - mu)
  let varr := (cent.map (fun v => v * v)).sum / n
  let denom := sq (varr + lnEps)
  List.zipWith (· + ·) (List.zipWith (fun c wi => c / denom * wi) cent w) b

/-- `nn.ReLU`. -/
def reluVal (x : ℚ) : ℚ := max x 0

/-- `nn.ReLU` applied to a `C × H × W` feature map. -/
def reluImage (x : List (List (List ℚ))) : List (List (List ℚ)) :=
  x.map (List.map (List.map reluVal))

/-- Value semantics of `nn.Conv2d` (no padding) for one sample:
`kernels` has shape `outC × inC × kh × kw`, the input `C × H × W`. -/
def conv2dVal (kernels : List (List (List (List ℚ)))) (bias : List ℚ) (stride : ℕ)
    (inp : List (List (List ℚ))) : List (List (List ℚ)) :=
  let hIn := (inp.headD []).length
  let wIn := ((inp.headD []).headD []).length
  let kh := ((kernels.headD []).headD []).length
  let kw := (((kernels.headD []).headD []).headD []).length
  List.zipWith (fun ker bi =>
      (List.range ((hIn - kh) / stride + 1)).map (fun i =>
        (List.range ((wIn - kw) / stride + 1)).map (fun j =>
          bi + (List.zipWith (fun kc c =>
                ((List.range kh).map (fun a =>
                  ((List.range kw).map (fun bb =>
                    (kc.getD a []).getD bb 0 *
                      ((c.getD (i * stride + a) []).getD (j * stride + bb) 0))).sum)).sum)
              ker inp).sum)))
    kernels bias

/-- `nn.Flatten` of a `C × H × W` feature map (row-major). -/
def flattenImage (x : List (List (List ℚ))) : List ℚ := (x.map List.flatten).flatten

/-!
## `dt_evaluation.py`

`get_returns` (lines 23-32): `returns_to_go[i]` first accumulates
`rewards[j]` for every `j < i` and is then replaced by
`target_return - returns_to_go[i]`.
-/

def get_returns (rewards : List ℚ) (target_return : ℚ) : List ℚ :=
  (List.range rewards.length).map (fun i =>
    target_return - (List.range i).foldl (fun acc j => acc + rewards.getD j 0) 0)

/-- The trajectory dictionary built by `experiment`/`get_trajectory`:
parallel lists of observations, actions, rewards and steps. -/
structure Trajectory (α : Type) where
  observations : List α
  actions : List ℤ
  rewards : List ℚ
  steps : List ℕ
deriving DecidableEq

/-- Python suffix slice `l[s:]` for an integer start index `s`
(negative indices count from the end and saturate). -/
def pySuffix {α : Type} (l : List α) (s : ℤ) : List α :=
  if s < 0 then l.drop (l.length - s.natAbs) else l.drop s.toNat

/-- The last `k` entries of a list (the whole list when it is shorter). -/
def lastN {α : Type} (k : ℕ) (l : List α) : List α := l.drop (l.length - k)

/-- The mutation of the trajectory dictionary performed by `make_action`
(`dt_evaluation.py` lines 38-57).  With no observation, or with fewer than
`context_len` observations, the dictionary is not touched (the second
branch only rebinds the *local* variable `context_len`); once at least
`context_len` observations are present, lines 50-52 reassign
`observations[-context_len:]`, `actions[-context_len+1:]` and
`rewards[-context_len:]` in place.  The model query and the sampled action
do not modify the trajectory. -/
def make_action_update {α : Type} (trajectory : Trajectory α) (context_len : ℕ) :
    Trajectory α :=
  if trajectory.observations.length = 0 then trajectory
  else if trajectory.observations.length < context_len then trajectory
  else
    { trajectory with
      observations := pySuffix trajectory.observations (-(context_len : ℤ))
      actions := pySuffix trajectory.actions (-(context_len : ℤ) + 1)
      rewards := pySuffix trajectory.rewards (-(context_len : ℤ)) }

/-!
## `download_dataset.py`

Both episode-construction loops (`mix_games == False`, lines 41-68, and
`mix_games == True`, lines 100-135) build `next_observations` the same way:
`dataset['observations'][i+1]`, falling back to
`dataset['observations'][i]` on an `IndexError` (which numpy raises
exactly when `i+1` is out of range).  The loop runs over
`i in range(N//2)` where `N = dataset['rewards'].shape[0]`.
-/

def nextObservation {α : Type} (observations : List α) (d : α) (i : ℕ) : α :=
  if i + 1 < observations.length then observations.getD (i + 1) d
  else observations.getD i d

/-- The list of `next_observations` values appended by the loop, one per
processed sample index `i < N / 2`. -/
def episodeNextObservations {α : Type} (observations : List α) (d : α) (numSamples : ℕ) :
    List α :=
  (List.range (numSamples / 2)).map (nextObservation observations d)

/-- IEEE-style value: a finite rational, a signed infinity, or NaN.  Used to
model the result of numpy float division, whose divisor may be zero. -/
inductive FVal where
  | fin : ℚ → FVal
  | pinf : FVal
  | ninf : FVal
  | nan : FVal
deriving DecidableEq

/-- numpy float division restricted to finite operands (the only case the
modelled program produces): division by zero yields NaN for a zero
numerator and a signed infinity otherwise. -/
def fdiv : FVal → FVal → FVal
  | FVal.fin a, FVal.fin b =>
      if b = 0 then (if a = 0 then FVal.nan else if 0 < a then FVal.pinf else FVal.ninf)
      else FVal.fin (a / b)
  | _, _ => FVal.nan

/-- `sum_reward` as accumulated by the `mix_games == True` loop
(line 117): the running sum of the rewards appended to the episode. -/
def sumReward (rs : List ℚ) : ℚ := rs.foldl (· + ·) 0

/-- Line 129 of `download_dataset.py`:
`episode_data['rewards'] = np.array(data_['rewards']) / sum_reward`,
performed unconditionally when an episode completes. -/
def normalizeRewards (rs : List ℚ) : List FVal :=
  rs.map (fun r => fdiv (FVal.fin r) (FVal.fin (sumReward rs)))

/-!
## `dt_model_pretrained.py` — construction

`MaskedCausalAttention.__init__` (lines 20-39) asserts
`h_dim % n_heads == 0` before building any layer, and registers the fixed
lower-triangular mask buffer `torch.tril(torch.ones((max_T, max_T)))`.
`DecisionTransformer.__init__` (lines 92-136) builds `n_blocks` blocks,
each containing one `MaskedCausalAttention` with `max_T = 3 * context_len`.
The embedding is faithful for `0 < n_heads` (for `n_heads = 0` Python `%`
raises a `ZeroDivisionError` instead of reaching the assert).
-/

/-- Entry `(i, j)` of the registered buffer
`torch.tril(torch.ones((maxT, maxT)))`. -/
def trilMask (maxT i j : ℕ) : ℚ :=
  if j ≤ i ∧ i < maxT ∧ j < maxT then 1 else 0

structure MaskedCausalAttention where
  nHeads : ℕ
  hDim : ℕ
  maxT : ℕ
deriving DecidableEq

/-- The mask buffer held by a constructed `MaskedCausalAttention`. -/
def MaskedCausalAttention.mask (m : MaskedCausalAttention) : ℕ → ℕ → ℚ :=
  trilMask m.maxT

/-- `MaskedCausalAttention.__init__`: the assert fails exactly when
`h_dim % n_heads ≠ 0`; otherwise the module is built with its
configuration unchanged. -/
def MCAInit (hDim maxT nHeads : ℕ) : Except String MaskedCausalAttention :=
  if hDim % nHeads = 0 then Except.ok ⟨nHeads, hDim, maxT⟩
  else Except.error "hidden dimension must be divisible by number of heads"

structure DTModel where
  stateDim : ℕ
  actDim : ℕ
  hDim : ℕ
  contextLen : ℕ
  blocks : List MaskedCausalAttention
deriving DecidableEq

/-- `DecisionTransformer.__init__`: builds one `MaskedCausalAttention` per
block with `input_seq_len = 3 * context_len`; construction fails iff one of
them fails. -/
def DTInit (stateDim actDim nBlocks hDim contextLen nHeads : ℕ) :
    Except String DTModel := do
  let inputSeqLen := 3 * contextLen
  let bs ← (List.range nBlocks).mapM (fun _ => MCAInit hDim inputSeqLen nHeads)
  Except.ok ⟨stateDim, actDim, hDim, contextLen, bs⟩

/-!
## `DecisionTransformer.forward` — token assembly (lines 159-163)

`torch.stack((returns_embeddings, state_embeddings, action_embeddings),
dim=1)` turns three `(B, T, H)` tensors into one `(B, 3, T, H)` tensor
whose batch-`b` slice is `[r_b, s_b, a_b]`; the subsequent
`.reshape(B, 3*T, H)` flattens the middle two dimensions row-major, i.e.
concatenates the three lanes. -/

def stackDim1 (r s a : List (List (List ℚ))) : List (List (List (List ℚ))) :=
  (List.range r.length).map (fun b => [r.getD b [], s.getD b [], a.getD b []])

def assembleInput (r s a : List (List (List ℚ))) : List (List (List ℚ)) :=
  (stackDim1 r s a).map List.flatten

/-!
## `MaskedCausalAttention.forward` / `Block.forward` — value semantics

Batch size 1.  `x` is the list of `T` token vectors of width `C`;
`N = n_heads`, `D = C // n_heads`.  `att = q @ k.T / math.sqrt(D)` is
masked with the tril buffer (`masked_fill(mask == 0, -inf)`) and
normalized by softmax; `exp(-inf) = 0`, so a masked entry contributes
weight `0` and the row is divided by the sum of `ex` over the unmasked
prefix.  Dropout is the identity (inference). -/

def attnForward (nHeads hDim maxT : ℕ) (ex sq : ℚ → ℚ)
    (cattnW : List (List ℚ)) (cattnB : List ℚ)
    (cprojW : List (List ℚ)) (cprojB : List ℚ)
    (x : List (List ℚ)) : List (List ℚ) :=
  let T := x.length
  let C := (x.headD []).length
  let D := C / nHeads
  let qkv := x.map (linear cattnW cattnB)
  let q := qkv.map (fun r => r.take hDim)
  let k := qkv.map (fun r => (r.drop hDim).take hDim)
  let v := qkv.map (fun r => ((r.drop hDim).drop hDim).take hDim)
  let headRow := fun (n i : ℕ) =>
    (List.range T).map (fun j =>
      if trilMask maxT i j = 0 then 0
      else ex (dot ((chunksOf D nHeads (q.getD i [])).getD n [])
                   ((chunksOf D nHeads (k.getD j [])).getD n []) / sq (D : ℚ)))
  let headOut := fun (n i : ℕ) =>
    let row := headRow n i
    let denom := row.sum
    vsum D ((List.range T).map (fun j =>
      ((chunksOf D nHeads (v.getD j [])).getD n []).map (fun c => row.getD j 0 / denom * c)))
  let y := (List.range T).map (fun i =>
    ((List.range nHeads).map (fun n => headOut n i)).flatten)
  y.map (linear cprojW cprojB)

/-- Weights of one `Block` (lines 69-88): attention projections, the two
layer norms, and the 4×-expansion MLP. -/
structure BlockW where
  cattnW : List (List ℚ)
  cattnB : List ℚ
  cprojW : List (List ℚ)
  cprojB : List ℚ
  ln1W : List ℚ
  ln1B : List ℚ
  ln2W : List ℚ
  ln2B : List ℚ
  fcW : List (List ℚ)
  fcB : List ℚ
  mlpProjW : List (List ℚ)
  mlpProjB : List ℚ

/-- `self.mlpf = dropout ∘ c_proj ∘ act ∘ c_fc` with GELU parameter `g`. -/
def mlpForward (g : ℚ → ℚ) (fcW : List (List ℚ)) (fcB : List ℚ)
    (pW : List (List ℚ)) (pB : List ℚ) (x : List ℚ) : List ℚ :=
  linear pW pB ((linear fcW fcB x).map g)

/-- `Block.forward`: `x = x + attn(ln_1(x)); x = x + mlpf(ln_2(x))`. -/
def blockForward (nHeads hDim maxT : ℕ) (g ex sq : ℚ → ℚ) (bw : BlockW)
    (x : List (List ℚ)) : List (List ℚ) :=
  let x1 := List.zipWith vecAdd x
    (attnForward nHeads hDim maxT ex sq bw.cattnW bw.cattnB bw.cprojW bw.cprojB
      (x.map (layerNorm sq bw.ln1W bw.ln1B)))
  List.zipWith vecAdd x1
    (x1.map (fun tv => mlpForward g bw.fcW bw.fcB bw.mlpProjW bw.mlpProjB
      (layerNorm sq bw.ln2W bw.ln2B tv)))

/-- All weights of a `DecisionTransformer` (lines 101-129). -/
structure DTW where
  timestepTable : List (List ℚ)
  rtgW : List (List ℚ)
  rtgB : List ℚ
  conv1W : List (List (List (List ℚ)))
  conv1B : List ℚ
  conv2W : List (List (List (List ℚ)))
  conv2B : List ℚ
  conv3W : List (List (List (List ℚ)))
  conv3B : List ℚ
  stateLinW : List (List ℚ)
  stateLinB : List ℚ
  actionTable : List (List ℚ)
  elnW : List ℚ
  elnB : List ℚ
  blocks : List BlockW
  lnfW : List ℚ
  lnfB : List ℚ
  predRtgW : List (List ℚ)
  predRtgB : List ℚ
  predStateW : List (List ℚ)
  predStateB : List ℚ
  predActionW : List (List ℚ)
  predActionB : List ℚ

/-- `self.embed_state` (lines 106-110): three conv+ReLU stages with
strides 4, 2, 1, flatten, `Linear(3136, h_dim*context_len)`, tanh. -/
def embedStateB1 (th : ℚ → ℚ) (wt : DTW) (states : List (List (List ℚ))) : List ℚ :=
  (linear wt.stateLinW wt.stateLinB
    (flattenImage (reluImage (conv2dVal wt.conv3W wt.conv3B 1
      (reluImage (conv2dVal wt.conv2W wt.conv2B 2
        (reluImage (conv2dVal wt.conv1W wt.conv1B 4 states)))))))).map th

/-- `self.embed_timestep` (line 102): embedding lookup followed by tanh;
added to every modality (lines 155-157). -/
def dtTimeEmbB1 (th : ℚ → ℚ) (wt : DTW) (timesteps : List ℕ) : List (List ℚ) :=
  timesteps.map (fun t => (wt.timestepTable.getD t []).map th)

/-- Line 155: `embed_state(states).reshape(B, T, h_dim) + time_embeddings`. -/
def dtStateEmbB1 (hDim : ℕ) (th : ℚ → ℚ) (wt : DTW) (timesteps : List ℕ)
    (states : List (List (List ℚ))) : List (List ℚ) :=
  List.zipWith vecAdd (chunksOf hDim timesteps.length (embedStateB1 th wt states))
    (dtTimeEmbB1 th wt timesteps)

/-- Line 156: `embed_action(actions).reshape(B, T, h_dim) + time_embeddings`
(`embed_action` is an embedding lookup followed by tanh, line 112). -/
def dtActionEmbB1 (th : ℚ → ℚ) (wt : DTW) (timesteps : List ℕ) (actions : List ℕ) :
    List (List ℚ) :=
  List.zipWith vecAdd (actions.map (fun a => (wt.actionTable.getD a []).map th))
    (dtTimeEmbB1 th wt timesteps)

/-- Line 157: `embed_rtg(returns_to_go).reshape(B, T, h_dim) +
time_embeddings` (`embed_rtg = Linear(context_len, h_dim*context_len)` then
tanh, line 103). -/
def dtRtgEmbB1 (hDim : ℕ) (th : ℚ → ℚ) (wt : DTW) (timesteps : List ℕ)
    (rtg : List ℚ) : List (List ℚ) :=
  List.zipWith vecAdd (chunksOf hDim timesteps.length ((linear wt.rtgW wt.rtgB rtg).map th))
    (dtTimeEmbB1 th wt timesteps)

/-- Lines 159-163: the batch-1 token sequence produced by
`torch.stack((returns, states, actions), dim=1).reshape(B, 3*T, h_dim)`. -/
def dtTokensB1 (hDim : ℕ) (th : ℚ → ℚ) (wt : DTW) (timesteps : List ℕ)
    (states : List (List (List ℚ))) (actions : List ℕ) (rtg : List ℚ) :
    List (List ℚ) :=
  (assembleInput [dtRtgEmbB1 hDim th wt timesteps rtg]
    [dtStateEmbB1 hDim th wt timesteps states]
    [dtActionEmbB1 th wt timesteps actions]).getD 0 []

/-- Lines 165-170: `embed_ln`, the block stack, `ln_f`. -/
def dtHiddenB1 (hDim contextLen nHeads : ℕ) (th g ex sq : ℚ → ℚ) (wt : DTW)
    (timesteps : List ℕ) (states : List (List (List ℚ))) (actions : List ℕ)
    (rtg : List ℚ) : List (List ℚ) :=
  ((wt.blocks.foldl
      (fun acc bw => blockForward nHeads hDim (3 * contextLen) g ex sq bw acc)
      ((dtTokensB1 hDim th wt timesteps states actions rtg).map
        (layerNorm sq wt.elnW wt.elnB))).map
    (layerNorm sq wt.lnfW wt.lnfB))

/-- `DecisionTransformer.forward` for batch size 1 (lines 147-185).
Lines 172-181: `h.reshape(B, T, 3, h_dim).permute(0, 2, 1, 3)` makes lane
`m` at timestep `t` the hidden state of sequence position `3*t + m`;
`return_preds`/`state_preds` read lane 2, `action_preds` reads lane 1.
(The `(B, T, state_dim, state_dim)` reshape of `state_preds` is kept
flat.) -/
def dtForwardB1 (hDim contextLen nHeads : ℕ) (th g ex sq : ℚ → ℚ) (wt : DTW)
    (timesteps : List ℕ) (states : List (List (List ℚ))) (actions : List ℕ)
    (rtg : List ℚ) :
    List (List ℚ) × List (List ℚ) × List (List ℚ) :=
  let T := timesteps.length
  let hs := dtHiddenB1 hDim contextLen nHeads th g ex sq wt timesteps states actions rtg
  let lane := fun (m t : ℕ) => hs.getD (3 * t + m) []
  ((List.range T).map (fun t => linear wt.predStateW wt.predStateB (lane 2 t)),
   (List.range T).map (fun t => linear wt.predActionW wt.predActionB (lane 1 t)),
   (List.range T).map (fun t => linear wt.predRtgW wt.predRtgB (lane 2 t)))

/-!
## `DecisionTransformer.forward` — shape semantics

Each torch operation of the forward pass is mirrored at the level of
tensor shapes; an operation that torch would reject with a shape error is
`none`.  This layer records where `forward` can fail on malformed inputs,
complementing the value-level semantics above (which assumes well-shaped
data). -/

abbrev Shape := List ℕ

/-- `reshape`: legal iff the element counts agree. -/
def sReshape (s target : Shape) : Option Shape :=
  if s.prod = target.prod then some target else none

/-- `nn.Linear(inF, outF)`: the last dimension must equal `inF`. -/
def sLinear (inF outF : ℕ) (s : Shape) : Option Shape :=
  match s.getLast? with
  | some d => if d = inF then some (s.dropLast ++ [outF]) else none
  | none => none

/-- `nn.Embedding(_, embDim)` on an integer tensor appends the embedding
dimension. -/
def sEmbedLookup (embDim : ℕ) (s : Shape) : Shape := s ++ [embDim]

/-- `nn.Conv2d(inC, outC, kernel, stride)` without padding on a
`(B, C, H, W)` tensor. -/
def sConv2d (inC outC kernel stride : ℕ) (s : Shape) : Option Shape :=
  match s with
  | [b, c, hh, ww] =>
      if c = inC ∧ kernel ≤ hh ∧ kernel ≤ ww then
        some [b, outC, (hh - kernel) / stride + 1, (ww - kernel) / stride + 1]
      else none
  | _ => none

/-- `nn.Flatten()` (default `start_dim = 1`). -/
def sFlattenFrom1 : Shape → Option Shape
  | b :: rest => some [b, rest.prod]
  | [] => none

/-- `nn.LayerNorm(dim)`: the last dimension must equal `dim`. -/
def sLayerNorm (dim : ℕ) (s : Shape) : Option Shape :=
  match s.getLast? with
  | some d => if d = dim then some s else none
  | none => none

/-- Elementwise addition of same-shape tensors (no broadcasting is needed
by `forward`). -/
def sAdd (s1 s2 : Shape) : Option Shape := if s1 = s2 then some s1 else none

/-- `torch.stack((·,·,·), dim=1)` of three equal shapes `b :: rest`. -/
def sStackThreeDim1 (s1 s2 s3 : Shape) : Option Shape :=
  match s1 with
  | b :: rest => if s2 = s1 ∧ s3 = s1 then some (b :: 3 :: rest) else none
  | [] => none

/-- Shape behaviour of `MaskedCausalAttention.forward` (lines 41-66):
`c_attn`, the `(B, T, N, D)` views with `D = C // n_heads`, the mask slice
`mask[..., :T, :T]` (requires `T ≤ max_T`), the head merge, `c_proj`. -/
def sAttention (hDim nHeads maxT : ℕ) (s : Shape) : Option Shape :=
  match s with
  | [b, t, c] =>
      let dHead := c / nHeads
      match sLinear hDim (3 * hDim) [b, t, c] with
      | none => none
      | some _ =>
      match sReshape [b, t, hDim] [b, t, nHeads, dHead] with
      | none => none
      | some _ =>
      if t ≤ maxT then
        match sReshape [b, t, nHeads, dHead] [b, t, nHeads * dHead] with
        | none => none
        | some _ => sLinear hDim hDim [b, t, nHeads * dHead]
      else none
  | _ => none

/-- Shape behaviour of `Block.forward` (lines 84-88). -/
def sBlock (hDim nHeads maxT : ℕ) (s : Shape) : Option Shape :=
  match sLayerNorm hDim s >>= sAttention hDim nHeads maxT with
  | none => none
  | some a =>
  match sAdd s a with
  | none => none
  | some s1 =>
  match sLayerNorm hDim s1 >>= sLinear hDim (4 * hDim) >>= sLinear (4 * hDim) hDim with
  | none => none
  | some m => sAdd s1 m

/-- Shape behaviour of `DecisionTransformer.forward` (lines 147-185),
following the source statement by statement.  `B = states.shape[0]`,
`T = timesteps.shape[1]`.  After `ln_f`, `h.reshape(B, T, 3,
h_dim).permute(0, 2, 1, 3)` is checked and each prediction head reads a
`(B, T, h_dim)` lane. -/
def forwardShapes (stateDim actDim contextLen nBlocks hDim nHeads : ℕ)
    (timestepsS statesS actionsS rtgS : Shape) :
    Option (Shape × Shape × Shape) :=
  let B := statesS.headD 0
  let T := timestepsS.getD 1 0
  match sReshape (sEmbedLookup hDim timestepsS) [B, T, hDim] with
  | none => none
  | some timeEmb =>
  match sConv2d contextLen 32 8 4 statesS >>= sConv2d 32 64 4 2 >>=
      sConv2d 64 64 3 1 with
  | none => none
  | some stateConv =>
  match sFlattenFrom1 stateConv >>= sLinear 3136 (hDim * contextLen) with
  | none => none
  | some stateFlat =>
  match sReshape stateFlat [B, T, hDim] >>= fun s => sAdd s timeEmb with
  | none => none
  | some stateEmb =>
  match sReshape (sEmbedLookup hDim actionsS) [B, T, hDim] >>=
      fun s => sAdd s timeEmb with
  | none => none
  | some actionEmb =>
  match sLinear (1 * contextLen) (hDim * contextLen) rtgS >>=
      fun s => sReshape s [B, T, hDim] >>= fun s2 => sAdd s2 timeEmb with
  | none => none
  | some rtgEmb =>
  match sStackThreeDim1 rtgEmb stateEmb actionEmb with
  | none => none
  | some stacked =>
  match sReshape stacked [B, 3 * T, hDim] with
  | none => none
  | some x0 =>
  match sLayerNorm hDim x0 with
  | none => none
  | some x1 =>
  match (List.range nBlocks).foldlM
      (fun s _ => sBlock hDim nHeads (3 * contextLen) s) x1 with
  | none => none
  | some x2 =>
  match sLayerNorm hDim x2 with
  | none => none
  | some hfin =>
  match sReshape hfin [B, T, 3, hDim] with
  | none => none
  | some _ =>
  let laneShape := [B, T, hDim]
  match sLinear hDim 1 laneShape with
  | none => none
  | some returnPreds =>
  match sLinear hDim (stateDim * stateDim) laneShape with
  | none => none
  | some statePredsFlat =>
  match sReshape statePredsFlat [B, T, stateDim, stateDim] with
  | none => none
  | some statePreds =>
  match sLinear hDim actDim laneShape with
  | none => none
  | some actionPreds => some (statePreds, actionPreds, returnPreds)

/-!
## Concrete instance used to settle the causality claim

A minimal valid configuration: `h_dim = 2`, `context_len = 2`,
`n_heads = 1`, one block, `act_dim = 2`.  The weights are chosen so that
every computation stays in `ℚ`:

* the timestep and action embedding tables are zero, the state path ends
  in a zero `Linear(3136, 4)`, so those embeddings vanish;
* `embed_rtg` maps the window `(r0, r1)` to the tokens
  `(tanh r0, tanh (-r0))` and `(tanh r1, tanh (-r1))` — each return token
  depends only on its own timestep's return-to-go;
* query and key projections are zero (uniform causal attention), the value
  and output projections are the identity;
* the MLP output projection is zero (the MLP contributes nothing);
* `predict_action` reads the first hidden coordinate.

The two compared inputs agree on the return-to-go and state of timestep 0,
on all states, and on all actions; they differ only in the return-to-go of
timestep 1 — a token strictly later than the action lane of timestep 0. -/

def c2Block : BlockW where
  cattnW := [[0, 0], [0, 0], [0, 0], [0, 0], [1, 0], [0, 1]]
  cattnB := [0, 0, 0, 0, 0, 0]
  cprojW := [[1, 0], [0, 1]]
  cprojB := [0, 0]
  ln1W := [1, 1]
  ln1B := [0, 0]
  ln2W := [1, 1]
  ln2B := [0, 0]
  fcW := [[0, 0], [0, 0], [0, 0], [0, 0], [0, 0], [0, 0], [0, 0], [0, 0]]
  fcB := [0, 0, 0, 0, 0, 0, 0, 0]
  mlpProjW := [[0, 0, 0, 0, 0, 0, 0, 0], [0, 0, 0, 0, 0, 0, 0, 0]]
  mlpProjB := [0, 0]

def c2W : DTW where
  timestepTable := [[0, 0]]
  rtgW := [[1, 0], [-1, 0], [0, 1], [0, -1]]
  rtgB := [0, 0, 0, 0]
  conv1W := List.replicate 32 (List.replicate 2 (List.replicate 8 (List.replicate 8 0)))
  conv1B := List.replicate 32 0
  conv2W := List.replicate 64 (List.replicate 32 (List.replicate 4 (List.replicate 4 0)))
  conv2B := List.replicate 64 0
  conv3W := List.replicate 64 (List.replicate 64 (List.replicate 3 (List.replicate 3 0)))
  conv3B := List.replicate 64 0
  stateLinW := List.replicate 4 (List.replicate 3136 0)
  stateLinB := List.replicate 4 0
  actionTable := [[0, 0], [0, 0]]
  elnW := [1, 1]
  elnB := [0, 0]
  blocks := [c2Block]
  lnfW := [1, 1]
  lnfB := [0, 0]
  predRtgW := [[0, 0]]
  predRtgB := [0]
  predStateW := [[0, 0]]
  predStateB := [0]
  predActionW := [[1, 0], [0, 0]]
  predActionB := [0, 0]

/-- A window of two all-zero stacked frames (`context_len = 2` channels of
`84 × 84` pixels). -/
def c2States : List (List (List ℚ)) :=
  List.replicate 2 (List.replicate 84 (List.replicate 84 0))

/-- The action logits returned by `forward` on the concrete model, as a
function of the return-to-go input window. -/
def c2Logits (th g ex sq : ℚ → ℚ) (rtg : List ℚ) : List (List ℚ) :=
  (dtForwardB1 2 2 1 th g ex sq c2W [0, 0] c2States [0, 0] rtg).2.1

/-!
## Concrete embeddings used to exhibit the token-layout defect

`B = 1`, `T = 2`, `h_dim = 1`; the return, state and action embeddings of
the two timesteps are the distinct one-dimensional vectors
`[10], [20]`, `[30], [40]` and `[50], [60]`. -/

def c1Returns : List (List (List ℚ)) := [[[10], [20]]]
def c1States : List (List (List ℚ)) := [[[30], [40]]]
def c1Actions : List (List (List ℚ)) := [[[50], [60]]]

/-- Abbreviation for the per-coordinate effect of the affine-trivial
`LayerNorm` on an antisymmetric pair `[x, -x]`: the value
`x / sq (x² + eps)`.  Used only to state evaluation lemmas. -/
def lnval (sq : ℚ → ℚ) (x : ℚ) : ℚ := x / sq (x * x + lnEps)

/-!
## Lemmas
-/

lemma getD_map_range {α : Type} (f : ℕ → α) (n i : ℕ) (d : α) (h : i < n) :
    ((List.range n).map f).getD i d = f i := by
  rw [List.getD_eq_getElem _ _ (by simpa using h)]
  simp [h]

lemma foldl_add_getD (rewards : List ℚ) (i : ℕ) (hi : i ≤ rewards.length) :
    (List.range i).foldl (fun acc j => acc + rewards.getD j 0) 0 =
      (rewards.take i).sum := by
  induction i with
  | zero => simp
  | succ n ih =>
      rw [List.range_succ, List.foldl_append]
      have hn : n < rewards.length := hi
      rw [ih (le_of_lt hn)]
      simp only [List.foldl_cons, List.foldl_nil]
      rw [List.sum_take_succ _ _ hn, List.getD_eq_getElem _ _ hn]

lemma get_returns_getD (rewards : List ℚ) (t : ℚ) (i : ℕ) (hi : i < rewards.length) :
    (get_returns rewards t).getD i 0 = t - (rewards.take i).sum := by
  rw [get_returns, getD_map_range _ _ _ _ hi, foldl_add_getD _ _ (le_of_lt hi)]

lemma get_returns_length (rewards : List ℚ) (t : ℚ) :
    (get_returns rewards t).length = rewards.length := by
  simp [get_returns]

lemma pySuffix_neg {α : Type} (l : List α) (k : ℕ) (hk : 0 < k) :
    pySuffix l (-(k : ℤ)) = lastN k l := by
  rw [pySuffix, lastN, if_pos (by exact_mod_cast Int.neg_neg_of_pos (by exact_mod_cast hk))]
  simp

lemma lastN_length {α : Type} (k : ℕ) (l : List α) (hk : k ≤ l.length) :
    (lastN k l).length = k := by
  rw [lastN, List.length_drop]
  omega

lemma make_action_update_full {α : Type} (trajectory : Trajectory α) (context_len : ℕ)
    (hcl : 2 ≤ context_len) (hfull : context_len ≤ trajectory.observations.length) :
    make_action_update trajectory context_len =
      { trajectory with
        observations := lastN context_len trajectory.observations
        actions := lastN (context_len - 1) trajectory.actions
        rewards := lastN context_len trajectory.rewards } := by
  rw [make_action_update, if_neg (by omega), if_neg (by omega)]
  have h1 : -(context_len : ℤ) + 1 = -((context_len - 1 : ℕ) : ℤ) := by
    push_cast [Nat.cast_sub (by omega : 1 ≤ context_len)]
    ring
  rw [pySuffix_neg _ _ (by omega), h1, pySuffix_neg _ _ (by omega),
    pySuffix_neg _ _ (by omega)]

lemma sumReward_eq_sum (rs : List ℚ) : sumReward rs = rs.sum := by
  rw [sumReward, List.sum_eq_foldl]

lemma sum_map_div (rs : List ℚ) (s : ℚ) :
    (rs.map (fun r => r / s)).sum = rs.sum / s := by
  induction rs with
  | nil => simp
  | cons a l ih => simp [add_div, ih]

lemma mapM_const_ok {β : Type} (l : List β) (m : MaskedCausalAttention)
    (f : β → Except String MaskedCausalAttention) (hf : ∀ b, f b = Except.ok m) :
    l.mapM f = Except.ok (List.replicate l.length m) := by
  induction l with
  | nil => rfl
  | cons a l ih =>
      rw [List.mapM_cons, hf a, ih]
      rfl

lemma mapM_cons_error {β : Type} (a : β) (l : List β) (e : String)
    (f : β → Except String MaskedCausalAttention) (hf : f a = Except.error e) :
    (a :: l).mapM f = Except.error e := by
  rw [List.mapM_cons, hf]
  rfl

lemma sReshape_of_prod (s t : Shape) (h : s.prod = t.prod) : sReshape s t = some t := by
  rw [sReshape, if_pos h]

lemma sReshape_refl (s : Shape) : sReshape s s = some s := sReshape_of_prod s s rfl

lemma sLinear_last3 (b t i o : ℕ) : sLinear i o [b, t, i] = some [b, t, o] := by
  rw [sLinear]
  simp

lemma sLinear_last2 (b i o : ℕ) : sLinear i o [b, i] = some [b, o] := by
  rw [sLinear]
  simp

lemma sLayerNorm_three (b t h : ℕ) : sLayerNorm h [b, t, h] = some [b, t, h] := by
  rw [sLayerNorm]
  simp

lemma sAdd_refl (s : Shape) : sAdd s s = some s := by
  rw [sAdd, if_pos rfl]

lemma sConv2d_ok (b c hh ww outC k st : ℕ) (h1 : k ≤ hh) (h2 : k ≤ ww) :
    sConv2d c outC k st [b, c, hh, ww] =
      some [b, outC, (hh - k) / st + 1, (ww - k) / st + 1] := by
  rw [sConv2d]
  simp [h1, h2]

lemma sStack_ok (b : ℕ) (rest : Shape) :
    sStackThreeDim1 (b :: rest) (b :: rest) (b :: rest) = some (b :: 3 :: rest) := by
  rw [sStackThreeDim1]
  simp

lemma sAttention_ok (b t h nHeads maxT : ℕ) (hdvd : nHeads * (h / nHeads) = h)
    (ht : t ≤ maxT) : sAttention h nHeads maxT [b, t, h] = some [b, t, h] := by
  obtain ⟨d, hd, hdvd2⟩ : ∃ d, h / nHeads = d ∧ nHeads * d = h := ⟨h / nHeads, rfl, hdvd⟩
  have hr1 : sReshape [b, t, h] [b, t, nHeads, d] = some [b, t, nHeads, d] := by
    apply sReshape_of_prod
    simp only [List.prod_cons, List.prod_nil]
    rw [← hdvd2]
    ring
  have hr2 : sReshape [b, t, nHeads, d] [b, t, nHeads * d] = some [b, t, nHeads * d] := by
    apply sReshape_of_prod
    simp only [List.prod_cons, List.prod_nil]
    ring
  rw [sAttention]
  simp only [hd]
  rw [sLinear_last3, hr1, if_pos ht, hr2, hdvd2, sLinear_last3]

lemma sBlock_ok (b t h nHeads maxT : ℕ) (hdvd : nHeads * (h / nHeads) = h)
    (ht : t ≤ maxT) : sBlock h nHeads maxT [b, t, h] = some [b, t, h] := by
  simp only [sBlock, sLayerNorm_three, Option.bind_eq_bind, Option.some_bind,
    sAttention_ok b t h nHeads maxT hdvd ht, sAdd_refl, sLinear_last3]

lemma foldlM_sBlock (h nHeads maxT : ℕ) (s : Shape)
    (hs : sBlock h nHeads maxT s = some s) (l : List ℕ) :
    l.foldlM (fun st _ => sBlock h nHeads maxT st) s = some s := by
  induction l with
  | nil => rfl
  | cons a l ih =>
      rw [List.foldlM_cons, hs]
      simpa [Option.bind_eq_bind] using ih

lemma assembleInput_singleton (r s a : List (List ℚ)) :
    assembleInput [r] [s] [a] = [r ++ s ++ a] := by
  have h1 : List.range 1 = [0] := rfl
  simp [assembleInput, stackDim1, h1]

lemma dot_replicate_zero (n : ℕ) (l : List ℚ) : dot (List.replicate n 0) l = 0 := by
  induction n generalizing l with
  | zero => rfl
  | succ m ih =>
      cases l with
      | nil => rfl
      | cons a l => simpa [dot, List.replicate_succ] using ih l

lemma linear_replicate_zero (m n : ℕ) (x : List ℚ) :
    linear (List.replicate m (List.replicate n 0)) (List.replicate m 0) x =
      List.replicate m 0 := by
  induction m with
  | zero => rfl
  | succ k ih =>
      simp only [List.replicate_succ, linear, List.zipWith_cons_cons] at ih ⊢
      rw [dot_replicate_zero]
      simpa [linear] using ih

lemma layerNorm_pair (sq : ℚ → ℚ) (a b : ℚ) :
    layerNorm sq [1, 1] [0, 0] [a, b] =
      [((a - b) / 2) / sq (((a - b) / 2) * ((a - b) / 2) + lnEps),
        -(((a - b) / 2) / sq (((a - b) / 2) * ((a - b) / 2) + lnEps))] := by
  have hm : a - (a + (b + 0)) / ((0 + 1 + 1 : ℕ) : ℚ) = (a - b) / 2 := by push_cast; ring
  have hm2 : b - (a + (b + 0)) / ((0 + 1 + 1 : ℕ) : ℚ) = -((a - b) / 2) := by
    push_cast; ring
  simp only [layerNorm, List.sum_cons, List.sum_nil, List.length_cons, List.length_nil,
    List.map_cons, List.map_nil, List.zipWith_cons_cons, List.zipWith_nil_left,
    List.zipWith_nil_right, hm, hm2]
  have ha : ((a - b) / 2 * ((a - b) / 2) + (-((a - b) / 2) * -((a - b) / 2) + 0)) /
      ((0 + 1 + 1 : ℕ) : ℚ) = ((a - b) / 2) * ((a - b) / 2) := by push_cast; ring
  simp only [ha]
  simp [neg_div]

lemma layerNorm_zero_pair (sq : ℚ → ℚ) : layerNorm sq [1, 1] [0, 0] [0, 0] = [0, 0] := by
  have h := layerNorm_pair sq 0 0
  simpa using h

lemma c2state (th : ℚ → ℚ) (hth0 : th 0 = 0) :
    embedStateB1 th c2W c2States = [0, 0, 0, 0] := by
  rw [embedStateB1]
  simp only [c2W]
  rw [linear_replicate_zero 4 3136, List.map_replicate, hth0]
  rfl

lemma c2time (th : ℚ → ℚ) (hth0 : th 0 = 0) :
    dtTimeEmbB1 th c2W [0, 0] = [[0, 0], [0, 0]] := by
  rw [dtTimeEmbB1]
  simp only [c2W]
  simp [hth0]

lemma c2rtg (th : ℚ → ℚ) (hth0 : th 0 = 0) (r0 r1 : ℚ) :
    dtRtgEmbB1 2 th c2W [0, 0] [r0, r1] =
      [[th r0, th (-r0)], [th r1, th (-r1)]] := by
  rw [dtRtgEmbB1, c2time th hth0]
  simp only [c2W]
  simp [linear, dot, chunksOf, List.range_succ, vecAdd, hth0]

lemma c2stateEmb (th : ℚ → ℚ) (hth0 : th 0 = 0) :
    dtStateEmbB1 2 th c2W [0, 0] c2States = [[0, 0], [0, 0]] := by
  rw [dtStateEmbB1, c2time th hth0, c2state th hth0]
  simp [chunksOf, List.range_succ, vecAdd]

lemma c2actionEmb (th : ℚ → ℚ) (hth0 : th 0 = 0) :
    dtActionEmbB1 th c2W [0, 0] [0, 0] = [[0, 0], [0, 0]] := by
  rw [dtActionEmbB1, c2time th hth0]
  simp only [c2W]
  simp [hth0, vecAdd]

lemma c2tokens (th : ℚ → ℚ) (hth0 : th 0 = 0) (r0 r1 : ℚ) :
    dtTokensB1 2 th c2W [0, 0] c2States [0, 0] [r0, r1] =
      [[th r0, th (-r0)], [th r1, th (-r1)], [0, 0], [0, 0], [0, 0], [0, 0]] := by
  rw [dtTokensB1, c2rtg th hth0, c2stateEmb th hth0, c2actionEmb th hth0]
  simp [assembleInput, stackDim1, List.range_succ]

lemma c2W_blocks : c2W.blocks = [c2Block] := rfl

lemma c2W_elnW : c2W.elnW = [1, 1] := rfl

lemma c2W_elnB : c2W.elnB = [0, 0] := rfl

lemma c2W_lnfW : c2W.lnfW = [1, 1] := rfl

lemma c2W_lnfB : c2W.lnfB = [0, 0] := rfl

lemma c2W_predActionW : c2W.predActionW = [[1, 0], [0, 0]] := rfl

lemma c2W_predActionB : c2W.predActionB = [0, 0] := rfl

lemma c2blockEval (g ex sq : ℚ → ℚ) (v : ℚ) :
    blockForward 1 2 6 g ex sq c2Block
        [[0, 0], [v, -v], [0, 0], [0, 0], [0, 0], [0, 0]] =
      [[0, 0],
        [v + ex 0 / (ex 0 + ex 0) * (v / sq (v * v + lnEps)),
          -v + -(ex 0 / (ex 0 + ex 0) * (v / sq (v * v + lnEps)))],
        [ex 0 / (ex 0 + (ex 0 + ex 0)) * (v / sq (v * v + lnEps)),
          -(ex 0 / (ex 0 + (ex 0 + ex 0)) * (v / sq (v * v + lnEps)))],
        [ex 0 / (ex 0 + (ex 0 + (ex 0 + ex 0))) * (v / sq (v * v + lnEps)),
          -(ex 0 / (ex 0 + (ex 0 + (ex 0 + ex 0))) * (v / sq (v * v + lnEps)))],
        [ex 0 / (ex 0 + (ex 0 + (ex 0 + (ex 0 + ex 0)))) * (v / sq (v * v + lnEps)),
          -(ex 0 / (ex 0 + (ex 0 + (ex 0 + (ex 0 + ex 0)))) * (v / sq (v * v + lnEps)))],
        [ex 0 / (ex 0 + (ex 0 + (ex 0 + (ex 0 + (ex 0 + ex 0))))) * (v / sq (v * v + lnEps)),
          -(ex 0 / (ex 0 + (ex 0 + (ex 0 + (ex 0 + (ex 0 + ex 0))))) *
            (v / sq (v * v + lnEps)))]] := by
  have hv : (v - -v) / 2 = v := by ring
  simp [blockForward, attnForward, c2Block, chunksOf, vsum, dot, linear, vecAdd,
    trilMask, List.range_succ, mlpForward, layerNorm_pair, layerNorm_zero_pair, hv]

lemma lnmap_tokens (sq : ℚ → ℚ) (a b : ℚ) :
    ([[0, 0], [a, b], [0, 0], [0, 0], [0, 0], [0, 0]] : List (List ℚ)).map
        (layerNorm sq [1, 1] [0, 0]) =
      [[0, 0], [lnval sq ((a - b) / 2), -lnval sq ((a - b) / 2)],
        [0, 0], [0, 0], [0, 0], [0, 0]] := by
  simp [layerNorm_pair, layerNorm_zero_pair, lnval]

lemma lnmap_shape (sq : ℚ → ℚ) (a b c d e : ℚ) :
    ([[0, 0], [a, -a], [b, -b], [c, -c], [d, -d], [e, -e]] : List (List ℚ)).map
        (layerNorm sq [1, 1] [0, 0]) =
      [[0, 0], [lnval sq a, -lnval sq a], [lnval sq b, -lnval sq b],
        [lnval sq c, -lnval sq c], [lnval sq d, -lnval sq d],
        [lnval sq e, -lnval sq e]] := by
  have h : ∀ x : ℚ, (x - -x) / 2 = x := fun x => by ring
  simp [layerNorm_pair, lnval, h]

lemma c2logits_eval (th g ex sq : ℚ → ℚ) (hth0 : th 0 = 0) (r1 : ℚ) :
    (c2Logits th g ex sq [0, r1]).getD 0 [] =
      [lnval sq (lnval sq ((th r1 - th (-r1)) / 2) +
        ex 0 / (ex 0 + ex 0) * lnval sq (lnval sq ((th r1 - th (-r1)) / 2))), 0] := by
  have htok := c2tokens th hth0 0 r1
  simp only [hth0, neg_zero] at htok
  have h36 : (3 * 2 : ℕ) = 6 := rfl
  have hblock := c2blockEval g ex sq (lnval sq ((th r1 - th (-r1)) / 2))
  simp only [c2Logits, dtForwardB1, dtHiddenB1, htok, c2W_blocks, c2W_elnW, c2W_elnB,
    c2W_lnfW, c2W_lnfB, c2W_predActionW, c2W_predActionB, h36,
    List.foldl_cons, List.foldl_nil, lnmap_tokens]
  have hna : ∀ x y : ℚ, -x + -y = -(x + y) := fun x y => by ring
  simp only [hblock, hna, lnmap_shape]
  simp [linear, dot, List.range_succ, lnval]

/-!
## Claim theorems
-/

/-- Claim C1 (the code contradicts it): `torch.stack((r, s, a),
dim=1).reshape(B, 3*T, h_dim)` at lines 161-163 does **not** interleave the
tokens per timestep.  For `B = 1`, `T = 2`, `h_dim = 1` with return
embeddings `[10], [20]`, state embeddings `[30], [40]` and action
embeddings `[50], [60]`, the assembled sequence is the lane-blocked
`(r0, r1, s0, s1, a0, a1)`; the token at sequence position `3·1 = 3` is the
state embedding of timestep 1, not the return embedding of timestep 1 that
the claim (and the comment on lines 159-160) places there. -/
theorem stack_reshape_interleaving_defect :
    assembleInput c1Returns c1States c1Actions =
      [[[10], [20], [30], [40], [50], [60]]] ∧
    ((assembleInput c1Returns c1States c1Actions).getD 0 []).getD (3 * 1) [] =
      (c1States.getD 0 []).getD 1 [] ∧
    ((assembleInput c1Returns c1States c1Actions).getD 0 []).getD (3 * 1) [] ≠
      (c1Returns.getD 0 []).getD 1 [] := by
  refine ⟨rfl, rfl, ?_⟩
  have h40 : ((assembleInput c1Returns c1States c1Actions).getD 0 []).getD (3 * 1) [] =
      [(40 : ℚ)] := rfl
  have h20 : (c1Returns.getD 0 []).getD 1 [] = [(20 : ℚ)] := rfl
  rw [h40, h20]
  norm_num

/-- Claim C2 (the code contradicts it): on the concrete two-timestep model
`c2W` — a valid configuration (`h_dim = 2`, `n_heads = 1`, one block) —
the two forward inputs agree on the return-to-go and state of timestep 0,
on all states, and on all actions; they differ only in the return-to-go of
timestep 1, a token strictly later than the action lane of timestep 0.
The claim asserts the action-prediction logits at timestep 0 are identical;
they differ, for every tanh/GELU/exp/sqrt satisfying properties of the real
functions (`tanh (-1) < tanh 1`, `tanh 0 = 0`, `exp 0 > 0`, `sqrt` maps
positives to positives).  The cause is the lane-blocked token layout of
lines 161-163: sequence position `3·0 + 1`, read by the action head for
timestep 0, holds the return token of timestep 1. -/
theorem dt_action_prediction_reads_later_token (th g ex sq : ℚ → ℚ)
    (hth : th (-1) < th 1) (hth0 : th 0 = 0)
    (hex : 0 < ex 0) (hsq : ∀ x : ℚ, 0 < x → 0 < sq x) :
    (c2Logits th g ex sq [0, 0]).getD 0 [] ≠ (c2Logits th g ex sq [0, 1]).getD 0 [] := by
  have hA := c2logits_eval th g ex sq hth0 0
  simp only [neg_zero, hth0] at hA
  have hA0 : (c2Logits th g ex sq [0, 0]).getD 0 [] = [0, 0] := by
    rw [hA]
    norm_num [lnval]
  have hB := c2logits_eval th g ex sq hth0 1
  have hln : (0 : ℚ) < lnEps := by norm_num [lnEps]
  have hL : ∀ x : ℚ, 0 < x → 0 < lnval sq x := by
    intro x hx
    apply div_pos hx
    apply hsq
    nlinarith [mul_pos hx hx]
  have hd : 0 < (th 1 - th (-1)) / 2 := by linarith
  have h1 := hL _ hd
  have hc1 : 0 < ex 0 / (ex 0 + ex 0) := div_pos hex (by linarith)
  have h2 : 0 < lnval sq ((th 1 - th (-1)) / 2) +
      ex 0 / (ex 0 + ex 0) * lnval sq (lnval sq ((th 1 - th (-1)) / 2)) :=
    add_pos h1 (mul_pos hc1 (hL _ h1))
  have h3 := hL _ h2
  rw [hA0, hB]
  intro heq
  rw [List.cons.injEq] at heq
  exact absurd heq.1.symm (ne_of_gt h3)

/-- Witness for C2 at the concrete instantiation `tanh := id`,
`gelu := id`, `exp := const 1`, `sqrt := const 1`, which satisfies every
hypothesis of the theorem. -/
theorem dt_action_prediction_reads_later_token_witness :
    ((fun x : ℚ => x) (-1) < (fun x : ℚ => x) 1 ∧ (fun x : ℚ => x) 0 = 0 ∧
      (0 : ℚ) < (fun _ : ℚ => (1 : ℚ)) 0) ∧
    (c2Logits (fun x => x) (fun x => x) (fun _ => 1) (fun _ => 1) [0, 0]).getD 0 [] ≠
      (c2Logits (fun x => x) (fun x => x) (fun _ => 1) (fun _ => 1) [0, 1]).getD 0 [] :=
  ⟨⟨by norm_num, rfl, by norm_num⟩,
    dt_action_prediction_reads_later_token (fun x => x) (fun x => x) (fun _ => 1)
      (fun _ => 1) (by norm_num) rfl (by norm_num) (fun x hx => by norm_num)⟩

/-- Claim C3: the `i`-th entry of `get_returns rewards target_return` is the
target return minus the sum of the rewards at positions strictly before
`i`; in particular `get_returns [1, 1, 1] 10 = [10, 9, 8]`. -/
theorem get_returns_entry (rewards : List ℚ) (target_return : ℚ) (i : ℕ)
    (hi : i < rewards.length) :
    ((get_returns rewards target_return).length = rewards.length ∧
      (get_returns rewards target_return).getD i 0 =
        target_return - (rewards.take i).sum) ∧
    get_returns [1, 1, 1] 10 = [10, 9, 8] := by
  refine ⟨⟨get_returns_length _ _, get_returns_getD _ _ _ hi⟩, ?_⟩
  norm_num [get_returns, List.range_succ]

/-- Witness for C3 at `rewards = [1, 2, 3]`, `target_return = 10`,
`i = 2`. -/
theorem get_returns_entry_witness :
    (2 < ([1, 2, 3] : List ℚ).length) ∧
    (((get_returns [1, 2, 3] 10).length = ([1, 2, 3] : List ℚ).length ∧
      (get_returns [1, 2, 3] 10).getD 2 0 = 10 - (([1, 2, 3] : List ℚ).take 2).sum) ∧
    get_returns [1, 1, 1] 10 = [10, 9, 8]) :=
  ⟨by norm_num, get_returns_entry [1, 2, 3] 10 2 (by norm_num)⟩

/-- Claim C4: for non-negative rewards the return-to-go sequence produced
by `get_returns` is non-increasing. -/
theorem get_returns_monotone (rewards : List ℚ) (target_return : ℚ)
    (hpos : ∀ r ∈ rewards, 0 ≤ r) (i j : ℕ) (hij : i ≤ j) (hj : j < rewards.length) :
    (get_returns rewards target_return).getD j 0 ≤
      (get_returns rewards target_return).getD i 0 := by
  have hi : i < rewards.length := lt_of_le_of_lt hij hj
  rw [get_returns_getD _ _ _ hi, get_returns_getD _ _ _ hj]
  have hsplit : rewards.take j = rewards.take i ++ (rewards.drop i).take (j - i) := by
    rw [← List.take_add]
    congr 1
    omega
  have hseg : 0 ≤ ((rewards.drop i).take (j - i)).sum := by
    apply List.sum_nonneg
    intro x hx
    exact hpos x (List.drop_subset i rewards (List.take_subset _ _ hx))
  have : (rewards.take i).sum ≤ (rewards.take j).sum := by
    rw [hsplit, List.sum_append]
    linarith
  linarith

/-- Witness for C4 at `rewards = [1, 2]`, `target_return = 5`,
`i = 0`, `j = 1`. -/
theorem get_returns_monotone_witness :
    (∀ r ∈ ([1, 2] : List ℚ), 0 ≤ r) ∧
    (get_returns [1, 2] 5).getD 1 0 ≤ (get_returns [1, 2] 5).getD 0 0 :=
  ⟨by norm_num, get_returns_monotone [1, 2] 5 (by norm_num) 0 1 (by norm_num) (by norm_num)⟩

/-- Claim C5 as amended: for `context_len ≥ 2` and a trajectory that is
well-formed in the sense of the data model (`len rewards = len
observations`, `len actions + 1 = len observations` — actions lag
observations by one) and holds at least `context_len` observations,
`make_action` leaves exactly `context_len` observations, `context_len`
rewards (hence `context_len` returns-to-go), and `context_len - 1` actions
in the trajectory, each the most recent entries of its list.  As stated the
claim fails for `context_len = 1`: the Python slice `actions[-context_len+1:]`
is then `actions[0:]`, which keeps every action. -/
theorem make_action_window_counts {α : Type} (trajectory : Trajectory α)
    (context_len : ℕ) (hcl : 2 ≤ context_len)
    (hwr : trajectory.rewards.length = trajectory.observations.length)
    (hwa : trajectory.actions.length + 1 = trajectory.observations.length)
    (hfull : context_len ≤ trajectory.observations.length) :
    (make_action_update trajectory context_len).observations.length = context_len ∧
    (make_action_update trajectory context_len).rewards.length = context_len ∧
    (get_returns (make_action_update trajectory context_len).rewards 200).length =
      context_len ∧
    (make_action_update trajectory context_len).actions.length = context_len - 1 ∧
    (make_action_update trajectory context_len).observations =
      lastN context_len trajectory.observations ∧
    (make_action_update trajectory context_len).rewards =
      lastN context_len trajectory.rewards ∧
    (make_action_update trajectory context_len).actions =
      lastN (context_len - 1) trajectory.actions := by
  rw [make_action_update_full trajectory context_len hcl hfull]
  refine ⟨lastN_length _ _ hfull, lastN_length _ _ (by omega), ?_,
    lastN_length _ _ (by omega), rfl, rfl, rfl⟩
  rw [get_returns_length]
  exact lastN_length _ _ (by omega)

/-- Witness for C5 on a well-formed three-step trajectory with
`context_len = 2`. -/
theorem make_action_window_counts_witness :
    (2 ≤ 2 ∧
      (Trajectory.mk ([0, 1, 2] : List ℕ) [7, 8] [1, 1, 1] [0, 1, 2]).rewards.length =
        (Trajectory.mk ([0, 1, 2] : List ℕ) [7, 8] [1, 1, 1] [0, 1, 2]).observations.length) ∧
    (make_action_update (Trajectory.mk ([0, 1, 2] : List ℕ) [7, 8] [1, 1, 1] [0, 1, 2])
        2).actions.length = 2 - 1 :=
  ⟨⟨by norm_num, by norm_num⟩,
    (make_action_window_counts (Trajectory.mk [0, 1, 2] [7, 8] [1, 1, 1] [0, 1, 2]) 2
      (by norm_num) (by norm_num) (by norm_num) (by norm_num)).2.2.2.1⟩

/-- Counterexample to C5 as stated: at `context_len = 1`, on the
well-formed trajectory with observations `[3, 4]`, one action, and two
rewards, the action list keeps its single entry after the call instead of
being left with `context_len - 1 = 0` actions. -/
theorem make_action_counts_fail_cl_one :
    ¬ ((make_action_update (Trajectory.mk ([3, 4] : List ℕ) [5] [2, 2] [0, 1])
        1).actions.length = 1 - 1) := by
  simp [make_action_update, pySuffix]

/-- Claim C6 as amended: for any positive number of heads,
`MaskedCausalAttention.__init__` fails with the assertion error iff
`h_dim % n_heads ≠ 0`, at construction time and with the configuration
preserved unchanged on success; a `DecisionTransformer` with at least one
transformer block fails the same way.  As stated the claim fails for
`n_blocks = 0`: no attention module is constructed, so an indivisible
configuration is accepted. -/
theorem init_assert_iff_divisible
    (hDim maxT nHeads stateDim actDim nBlocks contextLen : ℕ) (hN : 0 < nHeads) :
    ((∃ m, MCAInit hDim maxT nHeads = Except.ok m ∧
        m.hDim = hDim ∧ m.nHeads = nHeads ∧ m.maxT = maxT) ↔ hDim % nHeads = 0) ∧
    ((∃ e, MCAInit hDim maxT nHeads = Except.error e) ↔ ¬ hDim % nHeads = 0) ∧
    (0 < nBlocks →
      ((DTInit stateDim actDim nBlocks hDim contextLen nHeads).isOk = true ↔
        hDim % nHeads = 0)) := by
  refine ⟨?_, ?_, ?_⟩
  · constructor
    · rintro ⟨m, hm, -⟩
      by_contra hdiv
      rw [MCAInit, if_neg hdiv] at hm
      exact Except.noConfusion hm
    · intro hdiv
      exact ⟨⟨nHeads, hDim, maxT⟩, by rw [MCAInit, if_pos hdiv], rfl, rfl, rfl⟩
  · constructor
    · rintro ⟨e, he⟩ hdiv
      rw [MCAInit, if_pos hdiv] at he
      exact Except.noConfusion he
    · intro hdiv
      exact ⟨_, by rw [MCAInit, if_neg hdiv]⟩
  · intro hb
    constructor
    · intro hok
      by_contra hdiv
      obtain ⟨n, rest, hcons⟩ : ∃ n rest, List.range nBlocks = n :: rest := by
        cases hr : List.range nBlocks with
        | nil => exact absurd (List.range_eq_nil.mp hr) (by omega)
        | cons n rest => exact ⟨n, rest, rfl⟩
      rw [DTInit] at hok
      simp only [hcons] at hok
      rw [mapM_cons_error _ _ _ _ (by rw [MCAInit, if_neg hdiv])] at hok
      have hfalse : (false : Bool) = true := hok
      exact Bool.noConfusion hfalse
    · intro hdiv
      rw [DTInit]
      rw [mapM_const_ok _ ⟨nHeads, hDim, 3 * contextLen⟩ _
        (fun b => by rw [MCAInit, if_pos hdiv])]
      rfl

/-- Witness for C6 at the default configuration (`h_dim = 768`,
`n_heads = 12`, `n_blocks = 12`). -/
theorem init_assert_iff_divisible_witness :
    (0 < 12 ∧ 0 < 12) ∧
    ((DTInit 84 4 12 768 30 12).isOk = true ↔ 768 % 12 = 0) :=
  ⟨⟨by norm_num, by norm_num⟩,
    (init_assert_iff_divisible 768 90 12 84 4 12 30 (by norm_num)).2.2 (by norm_num)⟩

/-- Counterexample to C6 as stated: with `n_blocks = 0` the
`DecisionTransformer` constructor succeeds although `h_dim = 3` is not
divisible by `n_heads = 2`. -/
theorem dt_init_zero_blocks_accepts_indivisible :
    (DTInit 84 4 0 3 30 2).isOk = true ∧ ¬ (3 % 2 = 0) := by
  constructor
  · rfl
  · norm_num

/-- Claim C7: for every processed sample index `i < N/2` the stored
`next_observation` is the body value `nextObservation`, which equals
`observations[i+1]`; within the loop `i + 1` is always a valid index, and
on the last valid index the fallback of the body returns the sample's own
observation instead of failing. -/
theorem next_observation_fallback {α : Type} (observations : List α) (d : α)
    (numSamples i : ℕ) (hlen : observations.length = numSamples)
    (hi : i < numSamples / 2) :
    ((episodeNextObservations observations d numSamples).getD i d =
        nextObservation observations d i ∧
      i + 1 < observations.length ∧
      (episodeNextObservations observations d numSamples).getD i d =
        observations.getD (i + 1) d) ∧
    (∀ j, j + 1 = observations.length →
      nextObservation observations d j = observations.getD j d) := by
  have hstored : (episodeNextObservations observations d numSamples).getD i d =
      nextObservation observations d i := by
    rw [episodeNextObservations, getD_map_range _ _ _ _ hi]
  have hlt : i + 1 < observations.length := by omega
  refine ⟨⟨hstored, hlt, ?_⟩, ?_⟩
  · rw [hstored, nextObservation, if_pos hlt]
  · intro j hj
    rw [nextObservation, if_neg (by omega)]

/-- Witness for C7 at a three-sample dataset. -/
theorem next_observation_fallback_witness :
    (([10, 20, 30] : List ℕ).length = 3 ∧ 0 < 3 / 2) ∧
    (((episodeNextObservations [10, 20, 30] 0 3).getD 0 0 =
        nextObservation [10, 20, 30] 0 0 ∧
      0 + 1 < ([10, 20, 30] : List ℕ).length ∧
      (episodeNextObservations [10, 20, 30] 0 3).getD 0 0 =
        ([10, 20, 30] : List ℕ).getD (0 + 1) 0) ∧
    (∀ j, j + 1 = ([10, 20, 30] : List ℕ).length →
      nextObservation [10, 20, 30] 0 j = ([10, 20, 30] : List ℕ).getD j 0)) :=
  ⟨⟨by norm_num, by norm_num⟩,
    next_observation_fallback [10, 20, 30] 0 3 0 (by norm_num) (by norm_num)⟩

/-- Claim C8 as amended: for every valid configuration (`embed_dim`
divisible by `n_heads`) and every batch whose window length `T` equals the
model's `context_len` and whose state frames are `84 × 84`, the forward
pass returns `state_preds : (B, T, state_dim, state_dim)`,
`action_preds : (B, T, act_dim)` and `return_preds : (B, T, 1)`.  As
stated the claim fails for `T ≠ context_len`: the convolutional state
encoder (hard-wired to `context_len` input channels and to a
`Linear(3136, ·)` after the `84 × 84` conv stack) and the
`embed_rtg = Linear(context_len, ·)` both reject the input, so the forward
pass raises a shape error instead of returning. -/
theorem forward_output_shapes (stateDim actDim contextLen nBlocks hDim nHeads B : ℕ)
    (hdiv : hDim % nHeads = 0) :
    forwardShapes stateDim actDim contextLen nBlocks hDim nHeads
        [B, contextLen] [B, contextLen, 84, 84] [B, contextLen] [B, contextLen] =
      some ([B, contextLen, stateDim, stateDim], [B, contextLen, actDim],
        [B, contextLen, 1]) := by
  have hdvd : nHeads * (hDim / nHeads) = hDim :=
    Nat.mul_div_cancel' (Nat.dvd_of_mod_eq_zero hdiv)
  have hc1 : sConv2d contextLen 32 8 4 [B, contextLen, 84, 84] = some [B, 32, 20, 20] := by
    rw [sConv2d_ok _ _ _ _ _ _ _ (by norm_num) (by norm_num)]
  have hc2 : sConv2d 32 64 4 2 [B, 32, 20, 20] = some [B, 64, 9, 9] := by
    rw [sConv2d_ok _ _ _ _ _ _ _ (by norm_num) (by norm_num)]
  have hc3 : sConv2d 64 64 3 1 [B, 64, 9, 9] = some [B, 64, 7, 7] := by
    rw [sConv2d_ok _ _ _ _ _ _ _ (by norm_num) (by norm_num)]
  have hflat : sFlattenFrom1 [B, 64, 7, 7] = some [B, 3136] := by
    rw [sFlattenFrom1]
    norm_num
  have hrs : sReshape [B, hDim * contextLen] [B, contextLen, hDim] =
      some [B, contextLen, hDim] := by
    apply sReshape_of_prod
    simp only [List.prod_cons, List.prod_nil]
    ring
  have hstack := sStack_ok B [contextLen, hDim]
  have hx0 : sReshape [B, 3, contextLen, hDim] [B, 3 * contextLen, hDim] =
      some [B, 3 * contextLen, hDim] := by
    apply sReshape_of_prod
    simp only [List.prod_cons, List.prod_nil]
    ring
  have hblock := sBlock_ok B (3 * contextLen) hDim nHeads (3 * contextLen) hdvd le_rfl
  have hfold := foldlM_sBlock hDim nHeads (3 * contextLen) [B, 3 * contextLen, hDim]
    hblock (List.range nBlocks)
  have hlane : sReshape [B, 3 * contextLen, hDim] [B, contextLen, 3, hDim] =
      some [B, contextLen, 3, hDim] := by
    apply sReshape_of_prod
    simp only [List.prod_cons, List.prod_nil]
    ring
  have hsp : sReshape [B, contextLen, stateDim * stateDim]
      [B, contextLen, stateDim, stateDim] =
      some [B, contextLen, stateDim, stateDim] := by
    apply sReshape_of_prod
    simp only [List.prod_cons, List.prod_nil]
    ring
  rw [forwardShapes]
  simp only [List.headD_cons, List.getD_cons_succ, List.getD_cons_zero, one_mul,
    sEmbedLookup, List.cons_append, List.nil_append, List.append_nil,
    Option.bind_eq_bind, Option.some_bind, sReshape_refl, hc1, hc2, hc3, hflat,
    sLinear_last2, hrs, sAdd_refl, hstack, hx0, sLayerNorm_three, hfold, hlane,
    sLinear_last3, hsp]

/-- Witness for C8 at the default configuration with batch size 5. -/
theorem forward_output_shapes_witness :
    (768 % 12 = 0) ∧
    forwardShapes 84 4 30 12 768 12 [5, 30] [5, 30, 84, 84] [5, 30] [5, 30] =
      some ([5, 30, 84, 84], [5, 30, 4], [5, 30, 1]) :=
  ⟨by norm_num, by
    have h := forward_output_shapes 84 4 30 12 768 12 5 (by norm_num)
    norm_num at h
    exact h⟩

/-- Counterexample to C8 as stated: a valid configuration
(`context_len = 1`, `embed_dim = 2`, `n_heads = 1`) fed a batch of window
length `T = 2` with proper `84 × 84` frames; the forward pass fails (the
conv stack expects `context_len = 1` input channels) instead of returning
the claimed shapes. -/
theorem forward_shapes_window_mismatch :
    forwardShapes 84 4 1 1 2 1 [1, 2] [1, 2, 84, 84] [1, 2] [1, 2] = none := rfl

/-- Claim C9: the completed mixed-games episode's rewards are divided by
the episode's accumulated `sum_reward` with no guard: when the total is
nonzero every saved value is finite and the saved rewards sum to 1; an
episode whose rewards are all zero divides zero by zero, so every saved
value is NaN (non-finite). -/
theorem reward_normalization (rs : List ℚ) :
    (sumReward rs ≠ 0 →
      normalizeRewards rs = rs.map (fun r => FVal.fin (r / sumReward rs)) ∧
      (rs.map (fun r => r / sumReward rs)).sum = 1) ∧
    (rs ≠ [] → (∀ r ∈ rs, r = 0) →
      normalizeRewards rs = List.replicate rs.length FVal.nan) := by
  constructor
  · intro hs
    constructor
    · simp [normalizeRewards, fdiv, hs]
    · rw [sum_map_div, sumReward_eq_sum]
      exact div_self (by rwa [sumReward_eq_sum] at hs)
  · intro _ hz
    have hsum : sumReward rs = 0 := by
      rw [sumReward_eq_sum]
      exact List.sum_eq_zero hz
    have hmap : normalizeRewards rs = rs.map (fun _ => FVal.nan) := by
      apply List.map_congr_left
      intro r hr
      rw [hsum, hz r hr, fdiv, if_pos rfl, if_pos rfl]
    rw [hmap, List.map_const']

/-- Witness for C9 on the episodes `[2, 2]` (nonzero total) and `[0, 0]`
(all-zero total). -/
theorem reward_normalization_witness :
    (sumReward [2, 2] ≠ 0 ∧
      (normalizeRewards [2, 2] =
          ([2, 2] : List ℚ).map (fun r => FVal.fin (r / sumReward [2, 2])) ∧
        (([2, 2] : List ℚ).map (fun r => r / sumReward [2, 2])).sum = 1)) ∧
    (([0, 0] : List ℚ) ≠ [] ∧ (∀ r ∈ ([0, 0] : List ℚ), r = 0) ∧
      normalizeRewards [0, 0] = List.replicate ([0, 0] : List ℚ).length FVal.nan) :=
  ⟨⟨by norm_num [sumReward], (reward_normalization [2, 2]).1 (by norm_num [sumReward])⟩,
    ⟨by simp, by norm_num,
      (reward_normalization [0, 0]).2 (by simp) (by norm_num)⟩⟩

/-- Claim C10 as amended: for `context_len ≥ 2`, when the trajectory holds
at least `context_len` observations the call truncates `observations` and
`rewards` to their last `context_len` entries and `actions` to its last
`context_len - 1` entries, leaving `steps` untouched; with fewer than
`context_len` observations the trajectory is entirely unchanged.  As
stated the claim fails for `context_len = 1`, where the slice
`actions[-context_len+1:]` keeps the whole action list. -/
theorem make_action_frame {α : Type} (trajectory : Trajectory α) (context_len : ℕ)
    (hcl : 2 ≤ context_len) :
    (context_len ≤ trajectory.observations.length →
      make_action_update trajectory context_len =
        { observations := lastN context_len trajectory.observations
          actions := lastN (context_len - 1) trajectory.actions
          rewards := lastN context_len trajectory.rewards
          steps := trajectory.steps }) ∧
    (trajectory.observations.length < context_len →
      make_action_update trajectory context_len = trajectory) := by
  constructor
  · intro hfull
    rw [make_action_update_full trajectory context_len hcl hfull]
  · intro hlt
    rw [make_action_update]
    by_cases h0 : trajectory.observations.length = 0
    · rw [if_pos h0]
    · rw [if_neg h0, if_pos hlt]

/-- Witness for C10 on a three-step trajectory with `context_len = 2`. -/
theorem make_action_frame_witness :
    (2 ≤ 2 ∧
      2 ≤ (Trajectory.mk ([4, 5, 6] : List ℕ) [1, 2] [3, 3, 3] [0, 1, 2]).observations.length) ∧
    make_action_update (Trajectory.mk ([4, 5, 6] : List ℕ) [1, 2] [3, 3, 3] [0, 1, 2]) 2 =
      { observations := lastN 2 ([4, 5, 6] : List ℕ)
        actions := lastN 1 ([1, 2] : List ℤ)
        rewards := lastN 2 ([3, 3, 3] : List ℚ)
        steps := [0, 1, 2] } :=
  ⟨⟨by norm_num, by norm_num⟩,
    (make_action_frame (Trajectory.mk [4, 5, 6] [1, 2] [3, 3, 3] [0, 1, 2]) 2
      (by norm_num)).1 (by norm_num)⟩

/-- Counterexample to C10 as stated: at `context_len = 1` the action list
is not truncated to its last `1 - 1 = 0` entries; the single action
survives. -/
theorem make_action_mutation_fail_cl_one :
    (make_action_update (Trajectory.mk ([0, 1] : List ℕ) [9] [1, 1] [0, 1]) 1).actions ≠
      lastN (1 - 1) [9] := by
  simp [make_action_update, pySuffix, lastN]

end TransformerRL
